import Mathlib

/-!
Shallow embedding of the core simulation of `src/snake_game.py` (Snake Xenia).

Coordinates are pairs of integers: every entity of the game sits at integer
coordinates at tick boundaries (the head starts at the origin and moves in
steps of `GRID_SIZE`; consumables are placed at multiples of `GRID_SIZE`;
fresh segments are parked at the integer cell (1000, 1000)), so the float
positions of the turtle objects are exactly represented by integers.
Euclidean distance comparisons `distance(a, b) < c` on such integer points
are embedded as comparisons of squared distances `distSq a b < c ^ 2`, which
is exact for integer inputs and integer thresholds.

Randomness (`random.randrange`, `random.random`) is embedded as explicit
oracle inputs: a function `Nat → Nat × Nat` giving the successive draws of
the placement loop, and a Bool for the quarter-probability power-up roll.
Rendering, keyboard binding and sleeping are outside the simulation state.
-/

/-! Configuration constants, from the configuration block of the source. -/

def WIDTH : Int := 600

def HEIGHT : Int := 600

def GRID_SIZE : Int := 20

def INITIAL_SPEED : ℚ := 12 / 100

def SPEED_DECREMENT : ℚ := 5 / 1000

def SPEED_MIN : ℚ := 3 / 100

def FOOD_SCORE : Nat := 10

def XENIA_SCORE : Nat := 40

def LEVEL_UP_FOOD_COUNT : Nat := 5

def WALLS_ENABLED : Bool := true

def MAX_FOOD_TRIES : Nat := 50

/-- Movement direction; the source stores it as one of the strings
"up", "down", "left", "right", "stop". -/
inductive Dir where
  | up
  | down
  | left
  | right
  | stop
deriving DecidableEq, Repr

/-- The mutable global state of the game process: head position, body
segment positions (in body order, closest to the head first), direction,
score, session high score, step delay, level-progress counter, the food
and power-up turtles (position and visibility; `none` before creation),
and the pause flag. -/
structure GState where
  head : Int × Int
  snake_segments : List (Int × Int)
  direction : Dir
  score : Nat
  high_score : Nat
  delay : ℚ
  foods_eaten_in_level : Nat
  food : Option (Int × Int)
  food_visible : Bool
  xenia : Option (Int × Int)
  xenia_visible : Bool
  paused : Bool
deriving DecidableEq, Repr

/-- Squared Euclidean distance between two integer cells. -/
def distSq (p q : Int × Int) : Int :=
  (p.1 - q.1) ^ 2 + (p.2 - q.2) ^ 2

/-- Wall test of `collides_with_wall(x, y)`: outside the half-extent minus
a 10 px padding, unless walls are disabled. -/
def collides_with_wall (x y : Int) : Bool :=
  if !WALLS_ENABLED then false
  else
    let half_w := WIDTH / 2
    let half_h := HEIGHT / 2
    decide (x > half_w - 10) || decide (x < -half_w + 10) ||
      decide (y > half_h - 10) || decide (y < -half_h + 10)

/-- Self-collision test of `collides_with_self()`: some segment lies at
distance less than `GRID_SIZE - 2` from the head; on integer coordinates
this is the squared comparison against `(GRID_SIZE - 2) ^ 2`. -/
def collides_with_self (head : Int × Int) (segs : List (Int × Int)) : Bool :=
  segs.any (fun seg => decide (distSq head seg < (GRID_SIZE - 2) ^ 2))

/-- Number of values of `randrange(-WIDTH // 2 + 40, WIDTH // 2 - 40, GRID_SIZE)`:
the values are `-260 + 20 * k` for `k < 26`. -/
def NUM_CELLS : Nat := 26

/-- A raw random draw `(kx, ky)` mapped to the candidate cell drawn by the
two `randrange` calls of `place_turtle_at_random`. -/
def toCandidate (k : Nat × Nat) : Int × Int :=
  (-(WIDTH / 2) + 40 + GRID_SIZE * ((k.1 % NUM_CELLS : Nat) : Int),
   -(HEIGHT / 2) + 40 + GRID_SIZE * ((k.2 % NUM_CELLS : Nat) : Int))

/-- Rejection test of the placement loop: the candidate lies within one
grid unit of a given cell in both axes. -/
def overlapsBox (p q : Int × Int) : Bool :=
  decide ((p.1 - q.1).natAbs < GRID_SIZE.toNat) &&
    decide ((p.2 - q.2).natAbs < GRID_SIZE.toNat)

/-- The retry loop of `place_turtle_at_random`, with explicit remaining
fuel and draw index: take the next candidate; if it overlaps the head or
any segment, retry; once the fuel is exhausted fall back to the origin. -/
def placeTry (head : Int × Int) (segs : List (Int × Int)) (o : Nat → Nat × Nat) :
    Nat → Nat → Int × Int
  | 0, _ => (0, 0)
  | fuel + 1, i =>
    let c := toCandidate (o i)
    let collides := overlapsBox head c || segs.any (fun seg => overlapsBox seg c)
    if collides then placeTry head segs o fuel (i + 1) else c

/-- Placement of `place_turtle_at_random(t)`: up to `MAX_FOOD_TRIES` draws,
then the fallback cell (0, 0). -/
def place_turtle_at_random (head : Int × Int) (segs : List (Int × Int))
    (o : Nat → Nat × Nat) : Int × Int :=
  placeTry head segs o MAX_FOOD_TRIES 0

/-- Body shift and head advance of `move_snake()`: each segment takes the
position of its predecessor from the back forward, the first segment takes
the old head position, then the head moves one grid unit in the current
direction (unchanged when the direction is stop). -/
def move_snake (s : GState) : GState :=
  let segs :=
    if 0 < s.snake_segments.length then (s.head :: s.snake_segments).dropLast
    else s.snake_segments
  let h :=
    match s.direction with
    | .up => (s.head.1, s.head.2 + GRID_SIZE)
    | .down => (s.head.1, s.head.2 - GRID_SIZE)
    | .left => (s.head.1 - GRID_SIZE, s.head.2)
    | .right => (s.head.1 + GRID_SIZE, s.head.2)
    | .stop => s.head
  { s with snake_segments := segs, head := h }

/-- Growth of `spawn_segment()`: append one segment parked off-screen at
(1000, 1000); it is moved onto the board only by the next move cycle. -/
def spawn_segment (s : GState) : GState :=
  { s with snake_segments := s.snake_segments ++ [((1000 : Int), (1000 : Int))] }

/-- Direction handler `go_up()`: accepted unless currently moving down. -/
def go_up (s : GState) : GState :=
  if s.direction = .down then s else { s with direction := .up }

/-- Direction handler `go_down()`: accepted unless currently moving up. -/
def go_down (s : GState) : GState :=
  if s.direction = .up then s else { s with direction := .down }

/-- Direction handler `go_left()`: accepted unless currently moving right. -/
def go_left (s : GState) : GState :=
  if s.direction = .right then s else { s with direction := .left }

/-- Direction handler `go_right()`: accepted unless currently moving left. -/
def go_right (s : GState) : GState :=
  if s.direction = .left then s else { s with direction := .right }

/-- Pause toggle of `toggle_pause()`. -/
def toggle_pause (s : GState) : GState :=
  { s with paused := !s.paused }

/-- Delay assignment of `set_delay(new_delay)`. -/
def set_delay (s : GState) (new_delay : ℚ) : GState :=
  { s with delay := new_delay }

/-- Level-up check of `increase_speed_on_level_progress()`: once the
level-progress counter reaches the threshold, reset it and lower the delay
by the decrement, clamped below at the floor. -/
def increase_speed_on_level_progress (s : GState) : GState :=
  if LEVEL_UP_FOOD_COUNT ≤ s.foods_eaten_in_level then
    set_delay { s with foods_eaten_in_level := 0 }
      (max SPEED_MIN (s.delay - SPEED_DECREMENT))
  else s

/-- Power-up effect of `apply_xenia_effect()`: bump the level-progress
counter, run the level-up check, and return the bonus score to add. -/
def apply_xenia_effect (s : GState) : GState × Nat :=
  let s1 := { s with foods_eaten_in_level := s.foods_eaten_in_level + 1 }
  (increase_speed_on_level_progress s1, XENIA_SCORE)

/-- Reset of `reset_game_state()`: clear the segments, stop, zero the score
and level progress, restore the initial delay, hide the power-up if one
exists, and put the head back at the origin.  The high score and the food
are untouched. -/
def reset_game_state (s : GState) : GState :=
  { s with snake_segments := [], direction := .stop, score := 0,
           foods_eaten_in_level := 0, delay := INITIAL_SPEED,
           xenia_visible := if s.xenia.isSome then false else s.xenia_visible,
           head := ((0 : Int), (0 : Int)) }

/-- Food placement of `place_food()`: create the food turtle if absent and
place it at a random cell, shown. -/
def place_food (s : GState) (o : Nat → Nat × Nat) : GState :=
  let p := place_turtle_at_random s.head s.snake_segments o
  { s with food := some p, food_visible := true }

/-- Power-up placement of `place_xenia()`: with the quarter-probability
roll, place and show it; otherwise hide it if it exists. -/
def place_xenia (s : GState) (roll : Bool) (o : Nat → Nat × Nat) : GState :=
  if roll then
    let p := place_turtle_at_random s.head s.snake_segments o
    { s with xenia := some p, xenia_visible := true }
  else if s.xenia.isSome then { s with xenia_visible := false }
  else s

/-- Restart handler `restart_game()`: full reset, then a fresh food, and
the power-up hidden if present. -/
def restart_game (s : GState) (o : Nat → Nat × Nat) : GState :=
  let s1 := place_food (reset_game_state s) o
  if s1.xenia.isSome then { s1 with xenia_visible := false } else s1

/-- Per-tick random inputs: the draws of a possible food respawn, the
power-up spawn roll, and the draws of a possible power-up placement. -/
structure Oracle where
  foodO : Nat → Nat × Nat
  xeniaRoll : Bool
  xeniaO : Nat → Nat × Nat

/-- Wall and self checks of the main loop, applied to the state after
`move_snake()`: a wall hit, or otherwise (elif) a self hit, triggers the
game-over branch.  That branch stops the direction, clears and hides the
segments, moves the head to the origin and then calls `reset_game_state()`,
which repeats exactly those assignments, so its net effect on the state is
`reset_game_state`. -/
def death_check (s : GState) : GState :=
  if collides_with_wall s.head.1 s.head.2 then reset_game_state s
  else if collides_with_self s.head s.snake_segments then reset_game_state s
  else s

/-- High-score update `if score > high_score: high_score = score`, run at
the end of both consumable branches. -/
def hsClamp (s : GState) : GState :=
  if s.high_score < s.score then { s with high_score := s.score } else s

/-- Food check of the main loop: a separate `if` (not chained to the death
branch) run against the current head, which the death branch has possibly
just reset to the origin.  On a hit: hide the food, add the food score,
bump the level progress, spawn a segment, replace the food, roll a
power-up spawn, run the level-up check, and update the high score. -/
def food_check (s : GState) (o : Oracle) : GState :=
  match s.food with
  | none => s
  | some f =>
    if distSq s.head f < GRID_SIZE ^ 2 then
      let s1 := { s with food_visible := false,
                         score := s.score + FOOD_SCORE,
                         foods_eaten_in_level := s.foods_eaten_in_level + 1 }
      let s2 := spawn_segment s1
      let s3 := place_food s2 o.foodO
      let s4 := place_xenia s3 o.xeniaRoll o.xeniaO
      hsClamp (increase_speed_on_level_progress s4)
    else s

/-- Power-up check of the main loop: requires the power-up to exist and be
visible.  On a hit: hide it, apply the power-up effect and add its score,
spawn two segments, hide it again, and update the high score. -/
def xenia_check (s : GState) : GState :=
  match s.xenia with
  | none => s
  | some x =>
    if s.xenia_visible && decide (distSq s.head x < GRID_SIZE ^ 2) then
      let s1 := { s with xenia_visible := false }
      let p := apply_xenia_effect s1
      let s2 : GState := { p.1 with score := p.1.score + p.2 }
      let s3 := spawn_segment (spawn_segment s2)
      hsClamp { s3 with xenia_visible := false }
    else s

/-- One iteration of the main `while True` loop: nothing happens while
paused or stopped; otherwise move, then the death branch, then the food
branch, then the power-up branch. -/
def tick (s : GState) (o : Oracle) : GState :=
  if s.paused = true ∨ s.direction = .stop then s
  else xenia_check (food_check (death_check (move_snake s)) o)

/-- The discrete events the simulation consumes: the four direction keys,
the pause key, the restart key (with the random draws of its food
placement), and one timer tick (with its random inputs). -/
inductive Event where
  | keyUp
  | keyDown
  | keyLeft
  | keyRight
  | keyP
  | keyR (o : Nat → Nat × Nat)
  | tickE (o : Oracle)

/-- Dispatch of one event to its handler. -/
def step (s : GState) : Event → GState
  | .keyUp => go_up s
  | .keyDown => go_down s
  | .keyLeft => go_left s
  | .keyRight => go_right s
  | .keyP => toggle_pause s
  | .keyR o => restart_game s o
  | .tickE o => tick s o

/-- A finite run of the simulation from a state through a list of events. -/
def run (s : GState) (evs : List Event) : GState :=
  evs.foldl step s

/-- The state before any event: the module-level initialization builds the
screen, pen and head (head at the origin, no segments, direction stop,
zero scores, initial delay, not paused), then calls `place_food()` and
`place_xenia()`. -/
def base_state : GState where
  head := ((0 : Int), (0 : Int))
  snake_segments := []
  direction := .stop
  score := 0
  high_score := 0
  delay := INITIAL_SPEED
  foods_eaten_in_level := 0
  food := none
  food_visible := false
  xenia := none
  xenia_visible := false
  paused := false

/-- The process state right after startup, given the random inputs of the
initial food and power-up placements. -/
def init_state (o : Nat → Nat × Nat) (roll : Bool) (ox : Nat → Nat × Nat) : GState :=
  place_xenia (place_food base_state o) roll ox

/-- A constant placement oracle: every draw returns the same pair. -/
def oracleAt (k : Nat × Nat) : Nat → Nat × Nat := fun _ => k

/-- A tick oracle whose placements all draw (0, 0) and whose power-up roll
fails. -/
def quietOracle : Oracle :=
  ⟨oracleAt (0, 0), false, oracleAt (0, 0)⟩

/-- Offset of one movement step in a given direction, as applied by the
if-chain of `move_snake()` (no movement while stopped). -/
def dirOffset : Dir → Int × Int
  | .up => (0, GRID_SIZE)
  | .down => (0, -GRID_SIZE)
  | .left => (-GRID_SIZE, 0)
  | .right => (GRID_SIZE, 0)
  | .stop => (0, 0)

/-- The exact opposite of a direction (the value each handler guards
against). -/
def opposite : Dir → Dir
  | .up => .down
  | .down => .up
  | .left => .right
  | .right => .left
  | .stop => .stop

/-- Cell of the trailing segment number `i` of a snake lying in a straight
line behind a head at `h` moving with per-step offset `d`. -/
def behind (h d : Int × Int) (i : Nat) : Int × Int :=
  (h.1 - ((i : Int) + 1) * d.1, h.2 - ((i : Int) + 1) * d.2)

/-- A tick is fatal when it is actually simulated (not paused, direction
set) and the moved head hits a wall or the body. -/
def tick_is_fatal (s : GState) : Bool :=
  !s.paused && decide (s.direction ≠ .stop) &&
    (collides_with_wall (move_snake s).head.1 (move_snake s).head.2 ||
      collides_with_self (move_snake s).head (move_snake s).snake_segments)

/-- Largest score attained at any boundary (before, between or after the
events) of a run. -/
def maxScoreAlong : GState → List Event → Nat
  | s, [] => s.score
  | s, e :: evs => max s.score (maxScoreAlong (step s e) evs)

/-! Concrete states and event lists used by the counterexamples.  Each is a
genuine run of the simulation from the process start state `init_state`,
so every state exhibited below is reachable. -/

/-- Startup whose 50 initial food draws all land on the origin cell: each
collides with the head at the origin, so the placement falls back to the
origin and the initial food sits at (0, 0).  No power-up is rolled. -/
def deathTrapInit : GState := init_state (oracleAt (13, 13)) false (oracleAt (0, 0))

/-- Press right, then let 14 ticks pass: the head reaches (280, 0) with the
food still at the origin and the score still 0. -/
def deathTrapRun : GState :=
  run deathTrapInit (Event.keyRight :: List.replicate 14 (Event.tickE quietOracle))

/-- Startup whose initial food lands at (-260, -260), far from both the
origin and the path of the snake.  No power-up is rolled. -/
def farFoodInit : GState := init_state (oracleAt (0, 0)) false (oracleAt (0, 0))

/-- Press right and run 15 ticks: the fifteenth moves the head to (300, 0),
a wall hit, and the game-over branch runs. -/
def farFoodDead : GState :=
  run farFoodInit (Event.keyRight :: List.replicate 15 (Event.tickE quietOracle))

/-- Startup whose initial food lands at (40, 0), two cells right of the
head.  No power-up is rolled at startup. -/
def xeniaTrapInit : GState := init_state (oracleAt (15, 13)) false (oracleAt (0, 0))

/-- Tick inputs for the food pickup at (40, 0): the replacement food draws
all give (-260, -260), the power-up roll succeeds, and the power-up draws
all give the cell (80, 0). -/
def xeniaSpawnOracle : Oracle := ⟨oracleAt (0, 0), true, oracleAt (17, 13)⟩

/-- Press right; tick to (20, 0); tick to (40, 0) eating the food, which
places the power-up at (80, 0); tick to (60, 0); tick to (80, 0) eating the
power-up, which spawns two segments both parked at (1000, 1000). -/
def xeniaTrapRun : GState :=
  run xeniaTrapInit
    [Event.keyRight, Event.tickE quietOracle, Event.tickE xeniaSpawnOracle,
     Event.tickE quietOracle, Event.tickE quietOracle]

/-- A right-moving state used as a concrete input of several witnesses. -/
def rightState : GState := { base_state with direction := .right }

/-- A length-one straight snake: head at the origin moving right, one
segment one grid unit behind. -/
def straightOneSeg : GState :=
  { base_state with
    direction := .right
    snake_segments := [((-20 : Int), (0 : Int))] }

/-- A concrete snake about to step: head at (20, 0) moving right with its
single (tail) segment at the origin. -/
def tailAtOrigin : GState :=
  { base_state with
    head := ((20 : Int), (0 : Int))
    direction := .right
    snake_segments := [((0 : Int), (0 : Int))] }

/-- A concrete state about to die at the wall: head at (280, 0) moving
right, food far from the origin. -/
def aboutToDie : GState :=
  { base_state with
    head := ((280 : Int), (0 : Int))
    direction := .right
    food := some ((100 : Int), (100 : Int))
    food_visible := true }

/-- A second concrete dying state: head at (0, 280) moving up with a score
and a high score, food far from the origin. -/
def aboutToDieUp : GState :=
  { base_state with
    head := ((0 : Int), (280 : Int))
    direction := .up
    score := 30
    high_score := 30
    food := some ((-100 : Int), (60 : Int))
    food_visible := true }

/-! Small projection lemmas: which fields each operation leaves unchanged. -/

theorem move_snake_segs (s : GState) :
    (move_snake s).snake_segments = (s.head :: s.snake_segments).dropLast := by
  cases h : s.snake_segments with
  | nil => simp [move_snake, h]
  | cons a l => simp [move_snake, h]

theorem move_snake_head (s : GState) :
    (move_snake s).head =
      (s.head.1 + (dirOffset s.direction).1, s.head.2 + (dirOffset s.direction).2) := by
  cases h : s.direction <;> simp [move_snake, dirOffset, h] <;> ring

theorem spawn_segment_fields (s : GState) :
    (spawn_segment s).score = s.score ∧ (spawn_segment s).high_score = s.high_score ∧
    (spawn_segment s).delay = s.delay ∧
    (spawn_segment s).foods_eaten_in_level = s.foods_eaten_in_level :=
  ⟨rfl, rfl, rfl, rfl⟩

theorem place_food_fields (s : GState) (o : Nat → Nat × Nat) :
    (place_food s o).score = s.score ∧ (place_food s o).high_score = s.high_score ∧
    (place_food s o).delay = s.delay ∧
    (place_food s o).foods_eaten_in_level = s.foods_eaten_in_level :=
  ⟨rfl, rfl, rfl, rfl⟩

theorem place_xenia_fields (s : GState) (r : Bool) (o : Nat → Nat × Nat) :
    (place_xenia s r o).score = s.score ∧ (place_xenia s r o).high_score = s.high_score ∧
    (place_xenia s r o).delay = s.delay ∧
    (place_xenia s r o).foods_eaten_in_level = s.foods_eaten_in_level := by
  unfold place_xenia
  split
  · exact ⟨rfl, rfl, rfl, rfl⟩
  · split <;> exact ⟨rfl, rfl, rfl, rfl⟩

theorem islp_score_hs (s : GState) :
    (increase_speed_on_level_progress s).score = s.score ∧
    (increase_speed_on_level_progress s).high_score = s.high_score := by
  unfold increase_speed_on_level_progress set_delay
  split <;> exact ⟨rfl, rfl⟩

theorem death_check_cases (s : GState) :
    death_check s = reset_game_state s ∨ death_check s = s := by
  unfold death_check
  split
  · exact Or.inl rfl
  · split
    · exact Or.inl rfl
    · exact Or.inr rfl

/-- The retry loop either returns some non-overlapping candidate drawn at
an index within its fuel budget, or the fallback origin cell. -/
theorem placeTry_spec (head : Int × Int) (segs : List (Int × Int))
    (o : Nat → Nat × Nat) :
    ∀ (fuel i : Nat),
      (∃ j, i ≤ j ∧ j < i + fuel ∧
        placeTry head segs o fuel i = toCandidate (o j) ∧
        (overlapsBox head (toCandidate (o j)) ||
          segs.any (fun seg => overlapsBox seg (toCandidate (o j)))) = false) ∨
      placeTry head segs o fuel i = (0, 0)
  | 0, _ => Or.inr rfl
  | fuel + 1, i => by
    rw [placeTry]
    by_cases h : (overlapsBox head (toCandidate (o i)) ||
        segs.any (fun seg => overlapsBox seg (toCandidate (o i)))) = true
    · simp only [h, if_true]
      rcases placeTry_spec head segs o fuel (i + 1) with ⟨j, hij, hjf, heq, hcol⟩ | hfb
      · exact Or.inl ⟨j, by omega, by omega, heq, hcol⟩
      · exact Or.inr hfb
    · rw [Bool.not_eq_true] at h
      simp only [h, if_false]
      exact Or.inl ⟨i, le_refl i, by omega, rfl, h⟩

/-- Every candidate cell lies on the grid inside the placement rectangle. -/
theorem toCandidate_bounds (k : Nat × Nat) :
    -(WIDTH / 2) + 40 ≤ (toCandidate k).1 ∧ (toCandidate k).1 ≤ 240 ∧
    -(HEIGHT / 2) + 40 ≤ (toCandidate k).2 ∧ (toCandidate k).2 ≤ 240 := by
  have h1 : k.1 % 26 < 26 := Nat.mod_lt _ (by norm_num)
  have h2 : k.2 % 26 < 26 := Nat.mod_lt _ (by norm_num)
  simp only [toCandidate, WIDTH, HEIGHT, GRID_SIZE, NUM_CELLS]
  omega

/-- An integer point within 290 of the origin on both axes is not a wall
hit. -/
theorem collides_with_wall_eq_false {x y : Int}
    (hx1 : -290 ≤ x) (hx2 : x ≤ 290) (hy1 : -290 ≤ y) (hy2 : y ≤ 290) :
    collides_with_wall x y = false := by
  simp only [collides_with_wall, WALLS_ENABLED, WIDTH, HEIGHT, Bool.not_true,
    Bool.false_eq_true, if_false, Bool.or_eq_false_iff, decide_eq_false_iff_not]
  norm_num
  omega

/-- C7: `place_turtle_at_random` retries up to `MAX_FOOD_TRIES` random
draws, rejecting every candidate that lies within one grid unit of the
head or of a snake segment, and on exhaustion deterministically returns
the grid origin (0, 0) even if occupied; being a total function it always
produces a placement.  Its result is either a non-overlapping candidate
from one of the first `MAX_FOOD_TRIES` draws, or the origin fallback, and
in both cases a grid-aligned cell (bounds are settled separately for
claim ten). -/
theorem c7_place_random_bounded_retry_with_origin_fallback
    (head : Int × Int) (segs : List (Int × Int)) (o : Nat → Nat × Nat) :
    ((∃ j < MAX_FOOD_TRIES,
      place_turtle_at_random head segs o = toCandidate (o j) ∧
      (overlapsBox head (toCandidate (o j)) ||
        segs.any (fun seg => overlapsBox seg (toCandidate (o j)))) = false) ∨
    place_turtle_at_random head segs o = (0, 0)) ∧
    (place_turtle_at_random head segs o).1 % GRID_SIZE = 0 ∧
    (place_turtle_at_random head segs o).2 % GRID_SIZE = 0 := by
  have halign : ∀ k : Nat × Nat, (toCandidate k).1 % GRID_SIZE = 0 ∧
      (toCandidate k).2 % GRID_SIZE = 0 := by
    intro k
    simp only [toCandidate, WIDTH, HEIGHT, GRID_SIZE, NUM_CELLS]
    omega
  rcases placeTry_spec head segs o MAX_FOOD_TRIES 0 with ⟨j, _, hjf, heq, hcol⟩ | hfb
  · have heq2 : place_turtle_at_random head segs o = toCandidate (o j) := heq
    rw [heq2]
    exact ⟨Or.inl ⟨j, by omega, rfl, hcol⟩, halign (o j)⟩
  · have hfb2 : place_turtle_at_random head segs o = (0, 0) := hfb
    rw [hfb2]
    exact ⟨Or.inr rfl, by norm_num [GRID_SIZE], by norm_num [GRID_SIZE]⟩

/-- C10: every placement produced by `place_turtle_at_random` lies in the
grid rectangle from -WIDTH/2 + 40 up to (but excluding) WIDTH/2 - 40 on
the horizontal axis and likewise vertically, and in particular is strictly
inside the 10 px wall padding, so a spawned consumable is never on or
beyond a wall cell.  The random path yields a candidate of this rectangle
and the exhaustion fallback is its center cell (0, 0), so the bound holds
for every result. -/
theorem c10_spawn_inside_walls (head : Int × Int) (segs : List (Int × Int))
    (o : Nat → Nat × Nat) :
    -(WIDTH / 2) + 40 ≤ (place_turtle_at_random head segs o).1 ∧
    (place_turtle_at_random head segs o).1 < WIDTH / 2 - 40 ∧
    -(HEIGHT / 2) + 40 ≤ (place_turtle_at_random head segs o).2 ∧
    (place_turtle_at_random head segs o).2 < HEIGHT / 2 - 40 ∧
    collides_with_wall (place_turtle_at_random head segs o).1
      (place_turtle_at_random head segs o).2 = false := by
  rcases placeTry_spec head segs o MAX_FOOD_TRIES 0 with ⟨j, _, _, heq, _⟩ | hfb
  · unfold place_turtle_at_random
    rw [heq]
    obtain ⟨b1, b2, b3, b4⟩ := toCandidate_bounds (o j)
    refine ⟨b1, ?_, b3, ?_, ?_⟩
    · simp only [WIDTH] at *; omega
    · simp only [HEIGHT] at *; omega
    · exact collides_with_wall_eq_false (by simp only [WIDTH] at *; omega)
        (by omega) (by simp only [HEIGHT] at *; omega) (by omega)
  · unfold place_turtle_at_random
    rw [hfb]
    refine ⟨by norm_num [WIDTH], by norm_num [WIDTH], by norm_num [HEIGHT],
      by norm_num [HEIGHT], collides_with_wall_eq_false (by norm_num)
        (by norm_num) (by norm_num) (by norm_num)⟩

/-- C8: each direction handler rejects a request only when the current
direction value is the exact opposite of the requested one, so in the
initial stop state all four cardinal requests are accepted, and two
requests delivered between consecutive ticks (up then left while moving
right) leave the direction at the exact opposite of the direction used at
the previous tick: a 180 degree reversal through an intermediate turn. -/
theorem c8_reversal_guard_and_double_turn (s t : GState)
    (hs : s.direction = .stop) (ht : t.direction = .right) :
    (go_up s).direction = .up ∧ (go_down s).direction = .down ∧
    (go_left s).direction = .left ∧ (go_right s).direction = .right ∧
    (go_left (go_up t)).direction = opposite t.direction := by
  simp [go_up, go_down, go_left, go_right, hs, ht, opposite]

/-- Witness for C8 at the start state and a concrete right-moving state. -/
theorem c8_reversal_guard_and_double_turn_witness :
    (go_up base_state).direction = .up ∧ (go_down base_state).direction = .down ∧
    (go_left base_state).direction = .left ∧
    (go_right base_state).direction = .right ∧
    (go_left (go_up rightState)).direction = opposite rightState.direction :=
  c8_reversal_guard_and_double_turn base_state rightState rfl rfl

/-- Squared distance from the advanced head to a straight trailing segment
is at least the full squared grid unit, hence not under the self-collision
threshold. -/
theorem distSq_head_behind (h : Int × Int) (dir : Dir) (hd : dir ≠ .stop)
    (i : Nat) :
    ¬ distSq (h.1 + (dirOffset dir).1, h.2 + (dirOffset dir).2)
        (behind h (dirOffset dir) i) < (GRID_SIZE - 2) ^ 2 := by
  have hn : (0 : Int) ≤ (i : Int) := Int.natCast_nonneg i
  cases dir with
  | stop => exact absurd rfl hd
  | up => simp only [distSq, behind, dirOffset, GRID_SIZE]; nlinarith
  | down => simp only [distSq, behind, dirOffset, GRID_SIZE]; nlinarith
  | left => simp only [distSq, behind, dirOffset, GRID_SIZE]; nlinarith
  | right => simp only [distSq, behind, dirOffset, GRID_SIZE]; nlinarith

/-- The advanced head is exactly one grid unit from the old head cell. -/
theorem distSq_head_offset (h : Int × Int) (dir : Dir) (hd : dir ≠ .stop) :
    distSq (h.1 + (dirOffset dir).1, h.2 + (dirOffset dir).2) h =
      GRID_SIZE ^ 2 := by
  cases dir with
  | stop => exact absurd rfl hd
  | up => simp only [distSq, dirOffset, GRID_SIZE]; ring
  | down => simp only [distSq, dirOffset, GRID_SIZE]; ring
  | left => simp only [distSq, dirOffset, GRID_SIZE]; ring
  | right => simp only [distSq, dirOffset, GRID_SIZE]; ring

/-- C9: the self-collision test compares each head-to-segment distance
against the strict threshold `GRID_SIZE - 2`, so a cell at distance exactly
`GRID_SIZE` is never classified as a self collision; in particular, after a
committed step of a snake lying in a straight line behind its head (each
segment one grid unit behind the previous), the segment directly behind the
head sits at distance exactly one grid unit and no segment triggers the
test: a straight-moving snake never gets a false game over. -/
theorem c9_straight_snake_no_false_self_collision (s : GState)
    (hd : s.direction ≠ .stop)
    (hstraight : ∀ p ∈ s.snake_segments,
      ∃ i : Nat, p = behind s.head (dirOffset s.direction) i) :
    collides_with_self (move_snake s).head (move_snake s).snake_segments
        = false ∧
    (∀ p q : Int × Int, distSq p q = GRID_SIZE ^ 2 →
      ¬ distSq p q < (GRID_SIZE - 2) ^ 2) := by
  constructor
  · simp only [collides_with_self, List.any_eq_false, decide_eq_true_eq]
    intro seg hmem
    have hmem2 : seg ∈ s.head :: s.snake_segments := by
      rw [move_snake_segs] at hmem
      exact (List.dropLast_sublist _).subset hmem
    rw [move_snake_head]
    rcases List.mem_cons.mp hmem2 with rfl | hseg
    · rw [distSq_head_offset s.head s.direction hd]
      norm_num [GRID_SIZE]
    · obtain ⟨i, rfl⟩ := hstraight seg hseg
      exact distSq_head_behind s.head s.direction hd i
  · intro p q hpq
    rw [hpq]
    norm_num [GRID_SIZE]

/-- Witness for C9: a length-one snake at the origin moving right with its
segment one grid unit behind. -/
theorem c9_straight_snake_no_false_self_collision_witness :
    collides_with_self (move_snake straightOneSeg).head
        (move_snake straightOneSeg).snake_segments = false ∧
    (∀ p q : Int × Int, distSq p q = GRID_SIZE ^ 2 →
      ¬ distSq p q < (GRID_SIZE - 2) ^ 2) :=
  c9_straight_snake_no_false_self_collision straightOneSeg
    (by decide)
    (by
      intro p hp
      rw [show straightOneSeg.snake_segments = [((-20 : Int), (0 : Int))] from rfl,
        List.mem_singleton] at hp
      exact ⟨0, by rw [hp]; decide⟩)

/-- Counterexample for C3: with a snake whose head is at (20, 0) and whose
tail segment is at the origin, the most recent step leaves the previous
tail position at the origin, yet `spawn_segment` invoked right after that
step appends its segment at the off-screen cell (1000, 1000), not at the
previous tail position. -/
theorem c3_spawn_not_at_previous_tail_counterexample :
    (spawn_segment (move_snake tailAtOrigin)).snake_segments.getLast?
        = some ((1000 : Int), (1000 : Int)) ∧
    (spawn_segment (move_snake tailAtOrigin)).snake_segments.getLast?
        ≠ some ((0 : Int), (0 : Int)) := by
  constructor <;> decide

/-- C3 amended: `spawn_segment` appends exactly one segment, but parks it
at the fixed off-screen cell (1000, 1000) rather than at the previous tail
position; only at the next `move_snake` does the appended segment take a
board cell, namely the position the tail occupied before that next move,
so the on-board snake lengthens by one with a one-tick lag. -/
theorem c3_spawn_parks_offscreen_then_joins_at_tail (s : GState)
    (h : s.snake_segments ≠ []) :
    (spawn_segment s).snake_segments.getLast?
        = some ((1000 : Int), (1000 : Int)) ∧
    (spawn_segment s).snake_segments.length = s.snake_segments.length + 1 ∧
    (move_snake (spawn_segment s)).snake_segments
        = s.head :: s.snake_segments ∧
    (move_snake (spawn_segment s)).snake_segments.getLast?
        = s.snake_segments.getLast? := by
  have hseg : (move_snake (spawn_segment s)).snake_segments
      = s.head :: s.snake_segments := by
    rw [move_snake_segs]
    show (s.head :: (s.snake_segments ++ [((1000 : Int), (1000 : Int))])).dropLast
        = s.head :: s.snake_segments
    rw [← List.cons_append, List.dropLast_concat]
  refine ⟨List.getLast?_concat _, by simp [spawn_segment], hseg, ?_⟩
  rw [hseg]
  cases hc : s.snake_segments with
  | nil => exact absurd hc h
  | cons a l => rw [List.getLast?_cons_cons]

/-- Witness for C3 amended at the concrete snake with tail at the origin. -/
theorem c3_spawn_parks_offscreen_then_joins_at_tail_witness :
    (spawn_segment tailAtOrigin).snake_segments.getLast?
        = some ((1000 : Int), (1000 : Int)) ∧
    (spawn_segment tailAtOrigin).snake_segments.length
        = tailAtOrigin.snake_segments.length + 1 ∧
    (move_snake (spawn_segment tailAtOrigin)).snake_segments
        = tailAtOrigin.head :: tailAtOrigin.snake_segments ∧
    (move_snake (spawn_segment tailAtOrigin)).snake_segments.getLast?
        = tailAtOrigin.snake_segments.getLast? :=
  c3_spawn_parks_offscreen_then_joins_at_tail tailAtOrigin (by decide)

/-- Counterexample for C4: a state reached from process start by pressing
right and letting four ticks pass (eating the food at (40, 0), which
places a power-up at (80, 0), then eating that power-up, which spawns two
segments) has two body cells at the same coordinate: both fresh segments
are parked at (1000, 1000). -/
theorem c4_reachable_duplicate_cells_counterexample :
    xeniaTrapRun.snake_segments
        = [((60 : Int), (0 : Int)), ((1000 : Int), (1000 : Int)),
           ((1000 : Int), (1000 : Int))] ∧
    ¬ (xeniaTrapRun.head :: xeniaTrapRun.snake_segments).Nodup := by
  constructor <;> decide

/-- C4 amended: the committed move itself never duplicates a body cell:
if the body cells are pairwise distinct and the new head position is not a
previous body cell, the body cells after `move_snake` are again pairwise
distinct.  The invariant is broken only by growth ticks, which park fresh
segments at the shared off-screen cell (1000, 1000): after a power-up
pickup two such segments coincide until later moves separate them. -/
theorem c4_move_preserves_distinct_body (s : GState)
    (h1 : (s.head :: s.snake_segments).Nodup)
    (h2 : (move_snake s).head ∉ s.head :: s.snake_segments) :
    ((move_snake s).head :: (move_snake s).snake_segments).Nodup := by
  rw [List.nodup_cons, move_snake_segs]
  constructor
  · intro hmem
    exact h2 ((List.dropLast_sublist _).subset hmem)
  · exact h1.sublist (List.dropLast_sublist _)

/-- Witness for C4 amended at the concrete straight one-segment snake. -/
theorem c4_move_preserves_distinct_body_witness :
    ((move_snake straightOneSeg).head ::
        (move_snake straightOneSeg).snake_segments).Nodup :=
  c4_move_preserves_distinct_body straightOneSeg (by decide) (by decide)

/-- The food branch does nothing when no food exists or the head is at
least one grid unit from it. -/
theorem food_check_of_far (s : GState) (o : Oracle)
    (h : ∀ f, s.food = some f → ¬ distSq s.head f < GRID_SIZE ^ 2) :
    food_check s o = s := by
  unfold food_check
  cases hfo : s.food with
  | none => rfl
  | some f => exact if_neg (h f hfo)

/-- The power-up branch does nothing when no power-up exists or it is
hidden. -/
theorem xenia_check_skip (s : GState)
    (h : s.xenia = none ∨ s.xenia_visible = false) : xenia_check s = s := by
  unfold xenia_check
  cases hx : s.xenia with
  | none => rfl
  | some x =>
    rcases h with h1 | h2
    · rw [hx] at h1; exact absurd h1 (by simp)
    · rw [h2]; simp

/-- A fatal tick reduces to the full game reset: the death branch resets
the state with the head at the origin, the food branch then fires only if
the food lies within a grid unit of the origin, and the power-up branch is
always skipped because the reset hides the power-up. -/
theorem tick_fatal_eq (s : GState) (o : Oracle)
    (hp : s.paused = false) (hd : s.direction ≠ .stop)
    (hf : collides_with_wall (move_snake s).head.1 (move_snake s).head.2 = true ∨
      collides_with_self (move_snake s).head (move_snake s).snake_segments = true)
    (hfood : ∀ f, s.food = some f →
      ¬ distSq ((0 : Int), (0 : Int)) f < GRID_SIZE ^ 2) :
    tick s o = reset_game_state (move_snake s) := by
  have hdeath : death_check (move_snake s) = reset_game_state (move_snake s) := by
    unfold death_check
    cases hw : collides_with_wall (move_snake s).head.1 (move_snake s).head.2 with
    | true => simp [hw]
    | false =>
      rcases hf with h1 | h2
      · rw [hw] at h1; exact absurd h1 (by simp)
      · simp [hw, h2]
  have hxe : (reset_game_state (move_snake s)).xenia = none ∨
      (reset_game_state (move_snake s)).xenia_visible = false := by
    cases hx : (move_snake s).xenia with
    | none => exact Or.inl hx
    | some x =>
      right
      show (if (move_snake s).xenia.isSome then false
        else (move_snake s).xenia_visible) = false
      rw [hx]
      rfl
  have hfood2 : ∀ f, (reset_game_state (move_snake s)).food = some f →
      ¬ distSq (reset_game_state (move_snake s)).head f < GRID_SIZE ^ 2 :=
    fun f hfo => hfood f hfo
  rw [tick]
  rw [if_neg (by simp [hp, hd])]
  rw [hdeath]
  rw [food_check_of_far (reset_game_state (move_snake s)) o hfood2]
  exact xenia_check_skip _ hxe

/-- Counterexample for C1: a reachable state (from process start: the 50
initial food draws land on the head so the food falls back to the origin,
then press right and let 14 ticks pass) whose next tick is fatal and eats.
The moved head (300, 0) is a wall hit, the death branch resets the head to
the origin, and the food branch then fires on the origin food: in one and
the same tick the snake dies and eats, the score moves from 0 to the food
value and the snake grows by one segment. -/
theorem c1_dying_tick_also_eats_counterexample :
    collides_with_wall (move_snake deathTrapRun).head.1
        (move_snake deathTrapRun).head.2 = true ∧
    deathTrapRun.score = 0 ∧
    deathTrapRun.snake_segments = [] ∧
    (tick deathTrapRun quietOracle).score = FOOD_SCORE ∧
    (tick deathTrapRun quietOracle).snake_segments.length = 1 ∧
    (tick deathTrapRun quietOracle).direction = Dir.stop := by
  constructor <;> decide

/-- C1 amended: the wall and self branches are mutually exclusive and a
fatal collision resets the game before the consumable checks, but the food
and power-up checks still run afterwards against the reset state, whose
head is at the origin.  Whenever the food does not lie within one grid
unit of the origin, the fatal tick therefore consumes nothing: the tick
ends with score 0, no segments, untouched consumables and a cleared
level-progress counter.  (When the food does lie within a grid unit of the
origin, dying and eating in the same tick is possible.) -/
theorem c1_fatal_tick_consumes_nothing_off_origin (s : GState) (o : Oracle)
    (hp : s.paused = false) (hd : s.direction ≠ .stop)
    (hf : collides_with_wall (move_snake s).head.1 (move_snake s).head.2 = true ∨
      collides_with_self (move_snake s).head (move_snake s).snake_segments = true)
    (hfood : ∀ f, s.food = some f →
      ¬ distSq ((0 : Int), (0 : Int)) f < GRID_SIZE ^ 2) :
    (tick s o).score = 0 ∧ (tick s o).snake_segments = [] ∧
    (tick s o).food = s.food ∧ (tick s o).food_visible = s.food_visible ∧
    (tick s o).xenia = s.xenia ∧ (tick s o).foods_eaten_in_level = 0 := by
  rw [tick_fatal_eq s o hp hd hf hfood]
  exact ⟨rfl, rfl, rfl, rfl, rfl, rfl⟩

/-- Witness for C1 amended at the concrete dying state with head at
(280, 0) moving right into the wall, food at (100, 100). -/
theorem c1_fatal_tick_consumes_nothing_off_origin_witness :
    (tick aboutToDie quietOracle).score = 0 ∧
    (tick aboutToDie quietOracle).snake_segments = [] ∧
    (tick aboutToDie quietOracle).food = aboutToDie.food ∧
    (tick aboutToDie quietOracle).food_visible = aboutToDie.food_visible ∧
    (tick aboutToDie quietOracle).xenia = aboutToDie.xenia ∧
    (tick aboutToDie quietOracle).foods_eaten_in_level = 0 :=
  c1_fatal_tick_consumes_nothing_off_origin aboutToDie quietOracle rfl
    (by decide) (Or.inl (by decide))
    (by
      intro f hf
      have h2 : ((100 : Int), (100 : Int)) = f := Option.some.inj hf
      rw [← h2]
      decide)

/-- Counterexample for C2: after a fatal collision the game does not stay
frozen awaiting a restart.  In a reachable run (food far away, press
right, 15 ticks; the fifteenth moves the head to (300, 0), a wall hit),
the post-death state has head at the origin, direction stop, no segments;
delivering a direction key and one tick, with no restart request among the
delivered events, moves the head to (20, 0): state changes without any
restart. -/
theorem c2_no_frozen_over_phase_counterexample :
    collides_with_wall
        (move_snake (run farFoodInit
          (Event.keyRight :: List.replicate 14 (Event.tickE quietOracle)))).head.1
        (move_snake (run farFoodInit
          (Event.keyRight :: List.replicate 14 (Event.tickE quietOracle)))).head.2
        = true ∧
    farFoodDead.head = ((0 : Int), (0 : Int)) ∧
    farFoodDead.direction = Dir.stop ∧
    farFoodDead.snake_segments = [] ∧
    (run farFoodDead [Event.keyRight, Event.tickE quietOracle]).head
        = ((20 : Int), (0 : Int)) ∧
    (run farFoodDead [Event.keyRight, Event.tickE quietOracle]).direction
        = Dir.right ∧
    (∀ o2 : Nat → Nat × Nat,
      Event.keyR o2 ∉ [Event.keyRight, Event.tickE quietOracle]) := by
  refine ⟨by decide, by decide, by decide, by decide, by decide, by decide, ?_⟩
  intro o2 hmem
  rcases List.mem_cons.mp hmem with h1 | h1
  · exact Event.noConfusion h1
  · rw [List.mem_singleton] at h1
    exact Event.noConfusion h1

/-- C2 amended: on a fatal collision while running, the game does not
enter a persistent frozen Over phase and does not compare the score to the
high score at death; instead the game-over branch hides and clears the
segments and immediately auto-resets the whole game within the same tick:
direction stop, score 0, initial delay, head at the origin, power-up
hidden; the high score, maintained at eating time, is preserved
unchanged.  Movement can resume with any direction key, no restart
needed.  (Hypotheses: the tick is simulated, the moved head hits wall or
body, and the food is not within a grid unit of the origin.) -/
theorem c2_fatal_tick_autoresets_keeping_high_score (s : GState) (o : Oracle)
    (hp : s.paused = false) (hd : s.direction ≠ .stop)
    (hf : collides_with_wall (move_snake s).head.1 (move_snake s).head.2 = true ∨
      collides_with_self (move_snake s).head (move_snake s).snake_segments = true)
    (hfood : ∀ f, s.food = some f →
      ¬ distSq ((0 : Int), (0 : Int)) f < GRID_SIZE ^ 2) :
    tick s o = reset_game_state (move_snake s) ∧
    (tick s o).high_score = s.high_score ∧
    (tick s o).direction = Dir.stop ∧
    (tick s o).snake_segments = [] ∧
    (tick s o).score = 0 ∧
    (tick s o).delay = INITIAL_SPEED ∧
    (tick s o).head = ((0 : Int), (0 : Int)) := by
  have h := tick_fatal_eq s o hp hd hf hfood
  rw [h]
  exact ⟨h ▸ rfl, rfl, rfl, rfl, rfl, rfl, rfl⟩

/-- Witness for C2 amended at the concrete dying state with head at
(0, 280) moving up into the wall, score and high score 30. -/
theorem c2_fatal_tick_autoresets_keeping_high_score_witness :
    tick aboutToDieUp quietOracle = reset_game_state (move_snake aboutToDieUp) ∧
    (tick aboutToDieUp quietOracle).high_score = aboutToDieUp.high_score ∧
    (tick aboutToDieUp quietOracle).direction = Dir.stop ∧
    (tick aboutToDieUp quietOracle).snake_segments = [] ∧
    (tick aboutToDieUp quietOracle).score = 0 ∧
    (tick aboutToDieUp quietOracle).delay = INITIAL_SPEED ∧
    (tick aboutToDieUp quietOracle).head = ((0 : Int), (0 : Int)) :=
  c2_fatal_tick_autoresets_keeping_high_score aboutToDieUp quietOracle rfl
    (by decide) (Or.inl (by decide))
    (by
      intro f hf
      have h2 : ((-100 : Int), (60 : Int)) = f := Option.some.inj hf
      rw [← h2]
      decide)

/-! Projection facts for the high-score clamp and the level-up check. -/

theorem hsClamp_score (s : GState) : (hsClamp s).score = s.score := by
  unfold hsClamp; split <;> rfl

theorem hsClamp_high_score (s : GState) :
    (hsClamp s).high_score = max s.high_score s.score := by
  unfold hsClamp; split <;> simp <;> omega

theorem hsClamp_delay (s : GState) : (hsClamp s).delay = s.delay := by
  unfold hsClamp; split <;> rfl

theorem islp_delay (s : GState) (h : SPEED_MIN ≤ s.delay) :
    SPEED_MIN ≤ (increase_speed_on_level_progress s).delay ∧
    (increase_speed_on_level_progress s).delay ≤ s.delay := by
  unfold increase_speed_on_level_progress set_delay
  split
  · refine ⟨le_max_left _ _, max_le h ?_⟩
    have hdec : (0 : ℚ) < SPEED_DECREMENT := by norm_num [SPEED_DECREMENT]
    linarith
  · exact ⟨h, le_refl _⟩

/-- Case split of the food branch: either nothing happened, or the head
was within a grid unit of the food and the branch built the post-eating
state. -/
theorem food_check_eq_cases (s : GState) (o : Oracle) :
    food_check s o = s ∨
    ∃ f, s.food = some f ∧ distSq s.head f < GRID_SIZE ^ 2 ∧
      food_check s o =
        hsClamp (increase_speed_on_level_progress (place_xenia (place_food
          (spawn_segment
            { s with
              score := s.score + FOOD_SCORE
              foods_eaten_in_level := s.foods_eaten_in_level + 1
              food := some f
              food_visible := false }) o.foodO) o.xeniaRoll o.xeniaO)) := by
  unfold food_check
  cases hfo : s.food with
  | none => exact Or.inl rfl
  | some f =>
    by_cases hd : distSq s.head f < GRID_SIZE ^ 2
    · exact Or.inr ⟨f, rfl, hd, if_pos hd⟩
    · exact Or.inl (if_neg hd)

/-- Case split of the power-up branch: either nothing happened, or the
power-up was visible within a grid unit of the head and the branch built
the post-eating state. -/
theorem xenia_check_eq_cases (s : GState) :
    xenia_check s = s ∨
    ∃ x, s.xenia = some x ∧
      (s.xenia_visible && decide (distSq s.head x < GRID_SIZE ^ 2)) = true ∧
      xenia_check s =
        hsClamp
          { spawn_segment (spawn_segment
              { increase_speed_on_level_progress
                  { s with
                    xenia := some x
                    xenia_visible := false
                    foods_eaten_in_level := s.foods_eaten_in_level + 1 } with
                score :=
                  (increase_speed_on_level_progress
                    { s with
                      xenia := some x
                      xenia_visible := false
                      foods_eaten_in_level :=
                        s.foods_eaten_in_level + 1 }).score + XENIA_SCORE }) with
            xenia_visible := false } := by
  unfold xenia_check
  cases hx : s.xenia with
  | none => exact Or.inl rfl
  | some x =>
    by_cases hc : (s.xenia_visible && decide (distSq s.head x < GRID_SIZE ^ 2))
        = true
    · exact Or.inr ⟨x, rfl, hc, if_pos hc⟩
    · exact Or.inl (if_neg hc)

/-- The food branch never raises the delay and keeps it at or above the
floor. -/
theorem food_check_delay (s : GState) (o : Oracle) (h : SPEED_MIN ≤ s.delay) :
    SPEED_MIN ≤ (food_check s o).delay ∧ (food_check s o).delay ≤ s.delay := by
  rcases food_check_eq_cases s o with he | ⟨f, hfo, hd, he⟩
  · rw [he]; exact ⟨h, le_refl _⟩
  · rw [he, hsClamp_delay]
    have hXd : (place_xenia (place_food (spawn_segment
        { s with
          score := s.score + FOOD_SCORE
          foods_eaten_in_level := s.foods_eaten_in_level + 1
          food := some f
          food_visible := false }) o.foodO) o.xeniaRoll o.xeniaO).delay
        = s.delay := by
      simp [place_xenia_fields, place_food_fields, spawn_segment_fields]
    have hi := islp_delay _ (le_of_le_of_eq h hXd.symm)
    exact ⟨hi.1, hi.2.trans (le_of_eq hXd)⟩

/-- The power-up branch never raises the delay and keeps it at or above
the floor. -/
theorem xenia_check_delay (s : GState) (h : SPEED_MIN ≤ s.delay) :
    SPEED_MIN ≤ (xenia_check s).delay ∧ (xenia_check s).delay ≤ s.delay := by
  rcases xenia_check_eq_cases s with he | ⟨x, hx, hc, he⟩
  · rw [he]; exact ⟨h, le_refl _⟩
  · rw [he, hsClamp_delay]
    simp only [spawn_segment_fields]
    have h0 : ({ s with
        xenia := some x
        xenia_visible := false
        foods_eaten_in_level := s.foods_eaten_in_level + 1 } : GState).delay
        = s.delay := rfl
    have hi := islp_delay _ (le_of_le_of_eq h h0.symm)
    exact ⟨hi.1, hi.2.trans (le_of_eq h0)⟩

/-- The food branch leaves the score in place or adds the food value, and
in both cases ends with the high score clamped to the maximum of the old
high score and the new score. -/
theorem food_check_score_hs (s : GState) (o : Oracle)
    (h : s.score ≤ s.high_score) :
    (food_check s o).high_score = max s.high_score (food_check s o).score ∧
    s.score ≤ (food_check s o).score := by
  rcases food_check_eq_cases s o with he | ⟨f, hfo, hd, he⟩
  · rw [he]; exact ⟨by omega, le_refl _⟩
  · rw [he, hsClamp_high_score, hsClamp_score]
    have hsc : (increase_speed_on_level_progress (place_xenia (place_food
        (spawn_segment
          { s with
            score := s.score + FOOD_SCORE
            foods_eaten_in_level := s.foods_eaten_in_level + 1
            food := some f
            food_visible := false }) o.foodO) o.xeniaRoll o.xeniaO)).score
        = s.score + FOOD_SCORE := by
      simp [islp_score_hs, place_xenia_fields, place_food_fields,
        spawn_segment_fields]
    have hhs : (increase_speed_on_level_progress (place_xenia (place_food
        (spawn_segment
          { s with
            score := s.score + FOOD_SCORE
            foods_eaten_in_level := s.foods_eaten_in_level + 1
            food := some f
            food_visible := false }) o.foodO) o.xeniaRoll o.xeniaO)).high_score
        = s.high_score := by
      simp [islp_score_hs, place_xenia_fields, place_food_fields,
        spawn_segment_fields]
    rw [hsc, hhs]
    exact ⟨rfl, by omega⟩

/-- The power-up branch leaves the score in place or adds the power-up
value, and in both cases ends with the high score clamped to the maximum
of the old high score and the new score. -/
theorem xenia_check_score_hs (s : GState) (h : s.score ≤ s.high_score) :
    (xenia_check s).high_score = max s.high_score (xenia_check s).score ∧
    s.score ≤ (xenia_check s).score := by
  rcases xenia_check_eq_cases s with he | ⟨x, hx, hc, he⟩
  · rw [he]; exact ⟨by omega, le_refl _⟩
  · rw [he, hsClamp_high_score, hsClamp_score]
    simp only [spawn_segment_fields]
    have hq := islp_score_hs ({ s with
      xenia := some x
      xenia_visible := false
      foods_eaten_in_level := s.foods_eaten_in_level + 1 } : GState)
    simp only [hq.1, hq.2]
    exact ⟨trivial, by omega⟩

/-- Delay behaviour of one tick: it never goes below the floor, and in a
non-fatal tick it never increases (a fatal tick resets it to the initial
delay, which starts the next game). -/
theorem tick_delay_spec (s : GState) (o : Oracle) (h : SPEED_MIN ≤ s.delay) :
    SPEED_MIN ≤ (tick s o).delay ∧
    (tick_is_fatal s = false → (tick s o).delay ≤ s.delay) := by
  rw [tick]
  split
  · exact ⟨h, fun _ => le_refl _⟩
  · rename_i hguard
    have hnp : s.paused = false := by
      rcases Bool.eq_false_or_eq_true s.paused with hb | hb
      · exact absurd (Or.inl hb) hguard
      · exact hb
    have hnd : s.direction ≠ .stop := fun hds => hguard (Or.inr hds)
    by_cases hftl : (collides_with_wall (move_snake s).head.1
        (move_snake s).head.2 ||
        collides_with_self (move_snake s).head (move_snake s).snake_segments)
        = true
    · have hd : death_check (move_snake s)
          = reset_game_state (move_snake s) := by
        unfold death_check
        cases hw : collides_with_wall (move_snake s).head.1
            (move_snake s).head.2 with
        | true => simp [hw]
        | false =>
          have hself : collides_with_self (move_snake s).head
              (move_snake s).snake_segments = true := by
            rcases (Bool.or_eq_true _ _).mp hftl with h1 | h1
            · rw [hw] at h1; exact absurd h1 (by simp)
            · exact h1
          simp [hw, hself]
      have h1 : (death_check (move_snake s)).delay = INITIAL_SPEED := by
        rw [hd]; rfl
      have h2 := food_check_delay (death_check (move_snake s)) o
        (by rw [h1]; norm_num [SPEED_MIN, INITIAL_SPEED])
      have h3 := xenia_check_delay _ h2.1
      refine ⟨h3.1, fun hnf => ?_⟩
      have hft : tick_is_fatal s = true := by
        unfold tick_is_fatal
        rw [hnp, hftl]
        simp [hnd]
      exact absurd (hnf ▸ hft) (by simp)
    · have hwf := Bool.or_eq_false_iff.mp (Bool.not_eq_true _ |>.mp hftl)
      have hd : death_check (move_snake s) = move_snake s := by
        unfold death_check
        simp [hwf.1, hwf.2]
      have hmd : (death_check (move_snake s)).delay = s.delay := by rw [hd]; rfl
      have h2 := food_check_delay (death_check (move_snake s)) o
        (le_of_le_of_eq h hmd.symm)
      have h3 := xenia_check_delay _ h2.1
      exact ⟨h3.1, fun _ => (h3.2.trans h2.2).trans (le_of_eq hmd)⟩

/-- C6: the step delay never drops below the configured floor `SPEED_MIN`;
a non-fatal tick never increases it, and no other in-game operation (the
four direction handlers, the pause toggle) touches it, so across the ticks
of one game the delay is monotonically non-increasing; each level-up
resets the level-progress counter to 0 and lowers the delay by the
decrement clamped at the floor.  (A fatal collision or a restart begins a
new game with the initial delay.) -/
theorem c6_delay_floored_and_nonincreasing (s : GState) (o : Oracle)
    (h : SPEED_MIN ≤ s.delay) :
    SPEED_MIN ≤ (tick s o).delay ∧
    (tick_is_fatal s = false → (tick s o).delay ≤ s.delay) ∧
    (go_up s).delay = s.delay ∧ (go_down s).delay = s.delay ∧
    (go_left s).delay = s.delay ∧ (go_right s).delay = s.delay ∧
    (toggle_pause s).delay = s.delay ∧
    (LEVEL_UP_FOOD_COUNT ≤ s.foods_eaten_in_level →
      (increase_speed_on_level_progress s).foods_eaten_in_level = 0 ∧
      (increase_speed_on_level_progress s).delay
        = max SPEED_MIN (s.delay - SPEED_DECREMENT)) := by
  obtain ⟨t1, t2⟩ := tick_delay_spec s o h
  refine ⟨t1, t2, ?_, ?_, ?_, ?_, rfl, ?_⟩
  · unfold go_up; split <;> rfl
  · unfold go_down; split <;> rfl
  · unfold go_left; split <;> rfl
  · unfold go_right; split <;> rfl
  · intro hl
    unfold increase_speed_on_level_progress set_delay
    rw [if_pos hl]
    exact ⟨rfl, rfl⟩

/-- Witness for C6 at the start state, whose delay is the initial speed. -/
theorem c6_delay_floored_and_nonincreasing_witness :
    SPEED_MIN ≤ (tick base_state quietOracle).delay ∧
    (tick_is_fatal base_state = false →
      (tick base_state quietOracle).delay ≤ base_state.delay) ∧
    (go_up base_state).delay = base_state.delay ∧
    (go_down base_state).delay = base_state.delay ∧
    (go_left base_state).delay = base_state.delay ∧
    (go_right base_state).delay = base_state.delay ∧
    (toggle_pause base_state).delay = base_state.delay ∧
    (LEVEL_UP_FOOD_COUNT ≤ base_state.foods_eaten_in_level →
      (increase_speed_on_level_progress base_state).foods_eaten_in_level = 0 ∧
      (increase_speed_on_level_progress base_state).delay
        = max SPEED_MIN (base_state.delay - SPEED_DECREMENT)) :=
  c6_delay_floored_and_nonincreasing base_state quietOracle
    (by norm_num [SPEED_MIN, INITIAL_SPEED, base_state])

/-- After a tick, the high score equals the maximum of the old high score
and the new score, provided the score did not already exceed the high
score. -/
theorem tick_high_score_eq (s : GState) (o : Oracle)
    (h : s.score ≤ s.high_score) :
    (tick s o).high_score = max s.high_score (tick s o).score := by
  rw [tick]
  split
  · omega
  · have hd := death_check_cases (move_snake s)
    have hdhs : (death_check (move_snake s)).high_score = s.high_score := by
      rcases hd with h1 | h1 <;> rw [h1] <;> rfl
    have hdsc : (death_check (move_snake s)).score ≤ s.high_score := by
      rcases hd with h1 | h1 <;> rw [h1]
      · show (0 : Nat) ≤ s.high_score; omega
      · exact h
    have hI : (death_check (move_snake s)).score
        ≤ (death_check (move_snake s)).high_score :=
      le_of_le_of_eq hdsc hdhs.symm
    obtain ⟨hf1, hf2⟩ := food_check_score_hs (death_check (move_snake s)) o hI
    have hfI : (food_check (death_check (move_snake s)) o).score
        ≤ (food_check (death_check (move_snake s)) o).high_score := by
      rw [hf1]; omega
    obtain ⟨hx1, hx2⟩ :=
      xenia_check_score_hs (food_check (death_check (move_snake s)) o) hfI
    rw [hx1, hf1, hdhs]
    omega

/-- After any single event, the high score equals the maximum of the old
high score and the new score. -/
theorem step_high_score_eq (s : GState) (e : Event)
    (h : s.score ≤ s.high_score) :
    (step s e).high_score = max s.high_score (step s e).score := by
  cases e with
  | keyUp =>
    show (go_up s).high_score = max s.high_score (go_up s).score
    unfold go_up; split <;> simp <;> omega
  | keyDown =>
    show (go_down s).high_score = max s.high_score (go_down s).score
    unfold go_down; split <;> simp <;> omega
  | keyLeft =>
    show (go_left s).high_score = max s.high_score (go_left s).score
    unfold go_left; split <;> simp <;> omega
  | keyRight =>
    show (go_right s).high_score = max s.high_score (go_right s).score
    unfold go_right; split <;> simp <;> omega
  | keyP =>
    show (toggle_pause s).high_score = max s.high_score (toggle_pause s).score
    unfold toggle_pause; simp; omega
  | keyR o2 =>
    show (restart_game s o2).high_score
        = max s.high_score (restart_game s o2).score
    unfold restart_game place_food reset_game_state
    by_cases hx2 : s.xenia.isSome = true <;> simp [hx2]
  | tickE o2 => exact tick_high_score_eq s o2 h

/-- The score never exceeds the high score after a step, provided it did
not before. -/
theorem step_score_le_high (s : GState) (e : Event)
    (h : s.score ≤ s.high_score) :
    (step s e).score ≤ (step s e).high_score := by
  rw [step_high_score_eq s e h]; omega

/-- The running maximum is at least the current score. -/
theorem maxScoreAlong_ge (s : GState) (evs : List Event) :
    s.score ≤ maxScoreAlong s evs := by
  cases evs with
  | nil => exact le_refl _
  | cons e evs => exact le_max_left _ _

/-- Along any run the high score equals the maximum of its starting value
and every score attained at an event boundary. -/
theorem run_high_score_eq (evs : List Event) :
    ∀ s : GState, s.score ≤ s.high_score →
      (run s evs).high_score = max s.high_score (maxScoreAlong s evs) := by
  induction evs with
  | nil =>
    intro s h
    show s.high_score = max s.high_score s.score
    omega
  | cons e evs ih =>
    intro s h
    show (run (step s e) evs).high_score
        = max s.high_score (max s.score (maxScoreAlong (step s e) evs))
    rw [ih (step s e) (step_score_le_high s e h), step_high_score_eq s e h]
    have h1 := maxScoreAlong_ge (step s e) evs
    omega

/-- The score stays at or below the high score along any run. -/
theorem run_score_le_high (evs : List Event) :
    ∀ s : GState, s.score ≤ s.high_score →
      (run s evs).score ≤ (run s evs).high_score := by
  induction evs with
  | nil => intro s h; exact h
  | cons e evs ih => intro s h; exact ih (step s e) (step_score_le_high s e h)

/-- C5: from process start (both scores zero), after any sequence of key
presses, restarts and ticks the high score equals the maximum score ever
attained at an event boundary since process start, and it is monotonically
non-decreasing: extending the run by any further events (restarts
included) never lowers it. -/
theorem c5_high_score_is_running_maximum (o : Nat → Nat × Nat) (roll : Bool)
    (ox : Nat → Nat × Nat) (evs evs2 : List Event) :
    (run (init_state o roll ox) evs).high_score
        = maxScoreAlong (init_state o roll ox) evs ∧
    (run (init_state o roll ox) evs).high_score
        ≤ (run (init_state o roll ox) (evs ++ evs2)).high_score := by
  have hsc : (init_state o roll ox).score = 0 := by
    unfold init_state
    simp [place_xenia_fields, place_food_fields, base_state]
  have hhs : (init_state o roll ox).high_score = 0 := by
    unfold init_state
    simp [place_xenia_fields, place_food_fields, base_state]
  constructor
  · rw [run_high_score_eq evs _ (by rw [hsc, hhs])]
    rw [hhs]
    have := maxScoreAlong_ge (init_state o roll ox) evs
    omega
  · have hrun : run (init_state o roll ox) (evs ++ evs2)
        = run (run (init_state o roll ox) evs) evs2 := by
      unfold run
      exact List.foldl_append _ _ _ _
    rw [hrun,
      run_high_score_eq evs2 _ (run_score_le_high evs _ (by rw [hsc, hhs]))]
    exact le_max_left _ _
